import Mathlib

/-!
Verification development for the France investor dashboard (`app.py`).

The program is a small data dashboard: it loads CSV files into tables,
cleans a year/value series (`clean_macro`), renders a historical/forecast
band-overlay chart (`plot_hist_forecast_band`), and displays a fixed
sector scorecard sorted by its overall score.

We embed the tabular data model shallowly:
* a cell is either missing (`na`, modelling NaN), a number (rationals in
  place of floats; every value occurring in the program is decimal), or a
  string;
* a table is a list of rows, each row carrying the year cell, the value
  cell, and the `Type` cell, together with a flag recording whether the
  `Type` column is present;
* `pd.to_numeric(..., errors="coerce")` is modelled by a decimal parser
  that yields `na` on failure; `astype(str)` maps NaN to the literal
  string "nan" as pandas does; `.str.strip()` / `.str.lower()` are
  modelled on the character list;
* `sort_values(year_col)` is modelled as a stable ascending sort by the
  year key (`List.insertionSort`), and the scorecard's
  `sort_values("Overall", ascending=False)` as a stable descending sort
  (pandas' `nargsort` reverses, stable-sorts, and reverses back, so ties
  keep their original relative order in both directions).
-/

attribute [local semireducible] Rat.add Rat.mul Rat.sub Rat.inv Rat.ofScientific

namespace FranceDash

/-- A pandas cell: missing (NaN), numeric, or string. -/
inductive Cell where
  | na : Cell
  | num (q : ℚ) : Cell
  | str (s : String) : Cell
deriving DecidableEq

/-- Whether a cell holds a number (i.e. survived numeric coercion). -/
def Cell.isNum : Cell → Bool
  | .num _ => true
  | _ => false

/-- The numeric value of a cell, defaulting to 0 (only read on `num` cells). -/
def Cell.numVal : Cell → ℚ
  | .num q => q
  | _ => 0

/-- A row of the macro tables: year cell, value cell, and `Type` cell. -/
structure Row where
  year : Cell
  value : Cell
  type : Cell
deriving DecidableEq

/-- A table: its rows plus whether a `Type` column is present. -/
structure Table where
  hasType : Bool
  rows : List Row
deriving DecidableEq

/-- Python whitespace test used by `str.strip`. -/
def isPySpace (c : Char) : Bool := c.isWhitespace

/-- Strip leading and trailing whitespace from a character list. -/
def stripChars (l : List Char) : List Char :=
  ((l.dropWhile isPySpace).reverse.dropWhile isPySpace).reverse

/-- Model of Python `str.strip()`. -/
def pyStrip (s : String) : String := String.mk (stripChars s.data)

/-- Model of Python `str.lower()` (ASCII case folding). -/
def pyLower (s : String) : String := String.mk (s.data.map Char.toLower)

/-- Value of a digit list read in base 10. -/
def digitsVal (ds : List Char) : Nat :=
  ds.foldl (fun n c => 10 * n + (c.toNat - 48)) 0

/-- Split a leading sign character off a character list. -/
def splitSign : List Char → ℚ × List Char
  | '-' :: rest => (-1, rest)
  | '+' :: rest => (1, rest)
  | l => (1, l)

/-- Model of `pd.to_numeric(s, errors="coerce")` on a string cell: parse an
optionally signed decimal literal (surrounding whitespace ignored), `none`
on failure. -/
def parseDecimal (s : String) : Option ℚ :=
  let l := stripChars s.data
  let sl := splitSign l
  let intPart := sl.2.takeWhile Char.isDigit
  let rest := sl.2.dropWhile Char.isDigit
  match rest with
  | [] => if intPart.isEmpty then none else some (sl.1 * (digitsVal intPart : ℚ))
  | '.' :: frac =>
    if frac.all Char.isDigit && !(intPart.isEmpty && frac.isEmpty) then
      some (sl.1 * ((digitsVal intPart : ℚ) + (digitsVal frac : ℚ) / (10 : ℚ) ^ frac.length))
    else none
  | _ => none

/-- Numeric coercion of one cell (`pd.to_numeric(..., errors="coerce")`):
numbers pass through, NaN stays NaN, strings are parsed and become NaN on
failure. -/
def toNumericCell : Cell → Cell
  | .na => .na
  | .num q => .num q
  | .str s =>
    match parseDecimal s with
    | some q => .num q
    | none => .na

/-- Model of `astype(str)` on one cell: `str(nan) = "nan"`; numbers render
to their decimal/rational representation (no numeric `Type` cells occur in
the program's data); strings pass through. -/
def astypeStr : Cell → String
  | .na => "nan"
  | .num q => toString q
  | .str s => s

/-- The `Type`-column processing of `clean_macro`:
`df["Type"].astype(str).str.strip()`. -/
def cleanTypeCell (c : Cell) : Cell := .str (pyStrip (astypeStr c))

/-- Per-row effect of the coercion lines of `clean_macro` (lines 32-35 of
`app.py`): coerce year and value to numeric; if the `Type` column exists,
stringify and strip it. -/
def coerceRow (hasType : Bool) (r : Row) : Row :=
  { year := toNumericCell r.year
    value := toNumericCell r.value
    type := if hasType then cleanTypeCell r.type else r.type }

/-- The `dropna(subset=[year_col, value_col])` filter: keep a row iff both
its coerced year and value are numeric. -/
def keepRow (r : Row) : Bool := r.year.isNum && r.value.isNum

/-- The rows of `clean_macro`'s output before sorting: coerced and
NaN-filtered, in input order. -/
def kept (t : Table) : List Row :=
  (t.rows.map (coerceRow t.hasType)).filter keepRow

/-- Sort key of `sort_values(year_col)`. -/
def yearKey (r : Row) : ℚ := r.year.numVal

/-- The value read off a cleaned row. -/
def valueKey (r : Row) : ℚ := r.value.numVal

/-- Comparison used for `sort_values(year_col)`: ascending by year. -/
def rowLE (a b : Row) : Prop := yearKey a ≤ yearKey b

instance : DecidableRel rowLE :=
  fun a b => inferInstanceAs (Decidable (yearKey a ≤ yearKey b))

instance : IsTotal Row rowLE := ⟨fun a b => le_total (yearKey a) (yearKey b)⟩

instance : IsTrans Row rowLE := ⟨fun _ _ _ => le_trans⟩

/-- `clean_macro(df, year_col, value_col)` (lines 30-37 of `app.py`):
coerce year and value columns to numeric, stringify-and-strip `Type` when
present, drop rows whose year or value failed coercion, sort ascending by
year (a stable sort). -/
def cleanSeries (t : Table) : Table :=
  { hasType := t.hasType
    rows := (kept t).insertionSort rowLE }

/-- `df["Type"].str.lower() == target` on one row: string cells compare
case-insensitively, non-string cells never match. -/
def rowIsType (target : String) (r : Row) : Bool :=
  match r.type with
  | .str s => pyLower s == target
  | _ => false

/-- The historical partition of `plot_hist_forecast_band` (lines 43-48):
rows whose lowered `Type` equals "historical", or the whole table when no
`Type` column exists. -/
def histOf (t : Table) : List Row :=
  if t.hasType then t.rows.filter (rowIsType "historical") else t.rows

/-- The forecast partition of `plot_hist_forecast_band` (lines 43-48):
rows whose lowered `Type` equals "forecast", or empty when no `Type`
column exists. -/
def fcstOf (t : Table) : List Row :=
  if t.hasType then t.rows.filter (rowIsType "forecast") else []

/-- The (year, value) point plotted for a row. -/
def pointOf (r : Row) : ℚ × ℚ := (yearKey r, valueKey r)

/-- Truncation toward zero, as numpy's float-to-int `astype` does. -/
def ratTrunc (q : ℚ) : ℤ := if 0 ≤ q then ⌊q⌋ else ⌈q⌉

/-- The figure built by `plot_hist_forecast_band`: the shaded band, the
dashed center reference line, the optional historical and forecast lines,
the optional dashed connector segment, the x-ticks, and labels. -/
structure Chart where
  bandLower : ℚ
  bandUpper : ℚ
  refLine : ℚ
  histLine : Option (List (ℚ × ℚ))
  fcstLine : Option (List (ℚ × ℚ))
  connector : Option ((ℚ × ℚ) × (ℚ × ℚ))
  xticks : List ℤ
  title : String
  yLabel : String
deriving DecidableEq

/-- `plot_hist_forecast_band(df, year_col, value_col, title, y_label,
band_center, band_width)` (lines 39-81 of `app.py`): clean the series,
partition by `Type`, draw the expected band `[center - width/2,
center + width/2]` and the center reference line, the historical line if
non-empty, the forecast line if non-empty, and — when both partitions are
non-empty — one dashed connector from the last historical point to the
first forecast point; x-ticks are the integer years of the cleaned series. -/
def plot_hist_forecast_band (t : Table) (title yLabel : String)
    (band_center band_width : ℚ) : Chart :=
  let df := cleanSeries t
  let hist := histOf df
  let fcst := fcstOf df
  { bandLower := band_center - band_width / 2
    bandUpper := band_center + band_width / 2
    refLine := band_center
    histLine := if hist.isEmpty then none else some (hist.map pointOf)
    fcstLine := if fcst.isEmpty then none else some (fcst.map pointOf)
    connector :=
      if fcst.isEmpty then none
      else
        match (hist.map pointOf).getLast?, (fcst.map pointOf).head? with
        | some a, some b => some (a, b)
        | _, _ => none
    xticks := df.rows.map (fun r => ratTrunc (yearKey r))
    title := title
    yLabel := yLabel }

/-- The base resource directory as the loader sees it: its path, the names
of the files actually present (including the application script itself),
and the parsed table each present CSV yields. -/
structure FileSystem where
  baseDir : String
  names : List String
  content : String → Table

/-- `os.path.join(BASE_DIR, filename)`. -/
def joinPath (dir file : String) : String := dir ++ "/" ++ file

/-- Outcome of `load_csv`: the parsed table, or the fatal missing-file
error (`st.error` + `st.stop`) reporting the attempted path, the base
directory, and the directory listing. -/
inductive LoadResult where
  | ok (t : Table) : LoadResult
  | missingFileError (path : String) (baseDir : String) (listing : List String) : LoadResult
deriving DecidableEq

/-- `load_csv(filename)` (lines 18-25 of `app.py`): join the base directory
and filename; if no such file exists report the missing-file error (which
halts the render pass) with the attempted path and the directory listing;
otherwise parse and return the table. -/
def load_csv (fs : FileSystem) (filename : String) : LoadResult :=
  if filename ∈ fs.names then .ok (fs.content filename)
  else .missingFileError (joinPath fs.baseDir filename) fs.baseDir fs.names

/-- One row of the sector scorecard. -/
structure SectorRating where
  sector : String
  macroResilience : ℕ
  policySupport : ℕ
  exportScale : ℕ
  overall : ℚ
deriving DecidableEq

/-- The literal four-entry table of lines 184-189 of `app.py`, in source
order. -/
def scorecardRows : List SectorRating :=
  [⟨"Healthcare & Life Sciences (Health 2030)", 9, 9, 7, 8.5⟩,
   ⟨"Aerospace & Défense", 8, 8, 9, 8.5⟩,
   ⟨"Luxury & High-End Tourism", 6, 7, 9, 7.5⟩,
   ⟨"Agri-Food Tech", 8, 8, 7, 7.8⟩]

/-- Comparison of `sort_values("Overall", ascending=False)`: descending by
overall score. -/
def overallDesc (a b : SectorRating) : Prop := b.overall ≤ a.overall

instance : DecidableRel overallDesc :=
  fun a b => inferInstanceAs (Decidable (b.overall ≤ a.overall))

instance : IsTotal SectorRating overallDesc :=
  ⟨fun a b => le_total b.overall a.overall⟩

instance : IsTrans SectorRating overallDesc :=
  ⟨fun _ _ _ h h' => le_trans h' h⟩

/-- The scorecard displayed by the dashboard: the literal table sorted
descending by `Overall`, ties keeping their original order. -/
def scorecard : List SectorRating := scorecardRows.insertionSort overallDesc

/-- The scenario input table: rows (2021, "2.3", Historical),
(2022, "bad", Historical), (2023, "1.1", Forecast). -/
def scenarioInput : Table :=
  ⟨true, [⟨.num 2021, .str "2.3", .str "Historical"⟩,
          ⟨.num 2022, .str "bad", .str "Historical"⟩,
          ⟨.num 2023, .str "1.1", .str "Forecast"⟩]⟩

/-- The expected cleaned output of the scenario: the 2022 row dropped, the
others coerced. -/
def scenarioOutput : Table :=
  ⟨true, [⟨.num 2021, .num 2.3, .str "Historical"⟩,
          ⟨.num 2023, .num 1.1, .str "Forecast"⟩]⟩

/-- A one-row table whose `Type` value has mixed case and surrounding
whitespace. -/
def mixedCaseInput : Table :=
  ⟨true, [⟨.num 2021, .str "2.3", .str " Forecast "⟩]⟩

/-- A table whose only row has a non-numeric value, so it cleans to the
empty series. -/
def badValueInput : Table :=
  ⟨true, [⟨.num 2021, .str "bad", .str "Historical"⟩]⟩

/-- A table whose only row has a missing (null) `Type` cell. -/
def nanTypeInput : Table :=
  ⟨true, [⟨.num 2021, .str "2.3", .na⟩]⟩

/-- An example resource directory: the app script plus one CSV. -/
def exampleDir : FileSystem :=
  ⟨"/srv/dashboard", ["app.py", "france_gdp.csv"], fun _ => scenarioInput⟩

/-! Helper lemmas about the cleaner -/

lemma clean_rows_def (t : Table) :
    (cleanSeries t).rows = (kept t).insertionSort rowLE := rfl

lemma clean_hasType (t : Table) : (cleanSeries t).hasType = t.hasType := rfl

lemma clean_rows_perm (t : Table) : List.Perm (cleanSeries t).rows (kept t) :=
  List.perm_insertionSort rowLE (kept t)

lemma mem_clean_rows {t : Table} {r : Row} :
    r ∈ (cleanSeries t).rows ↔ r ∈ kept t :=
  (clean_rows_perm t).mem_iff

lemma clean_sorted (t : Table) : List.Sorted rowLE (cleanSeries t).rows :=
  List.sorted_insertionSort rowLE (kept t)

lemma keepRow_of_mem_kept {t : Table} {r : Row} (h : r ∈ kept t) :
    keepRow r = true :=
  List.of_mem_filter h

lemma toNumericCell_isNum {c : Cell} (h : c.isNum = true) :
    toNumericCell c = c := by
  cases c <;> simp_all [Cell.isNum, toNumericCell]

/-! ### Idempotence of whitespace stripping -/

/-- C1: for every input table the cleaner's output is sorted ascending by
the year column and contains no row whose year or value cell failed
numeric coercion; in particular the scenario input
[(2021, "2.3", Historical), (2022, "bad", Historical),
(2023, "1.1", Forecast)] cleans to exactly
[(2021, 2.3, Historical), (2023, 1.1, Forecast)], the 2022 row dropped. -/
theorem cleanSeries_sorted_coerced_scenario :
    (∀ t : Table, List.Sorted rowLE (cleanSeries t).rows ∧
      ∀ r ∈ (cleanSeries t).rows, r.year.isNum = true ∧ r.value.isNum = true) ∧
    cleanSeries scenarioInput = scenarioOutput := by
  refine ⟨fun t => ⟨clean_sorted t, fun r hr => ?_⟩, by decide⟩
  have h := keepRow_of_mem_kept (mem_clean_rows.mp hr)
  simp only [keepRow, Bool.and_eq_true] at h
  exact h

/-- Witness for C1: the first scenario row is in the cleaned output and
both its cells are numeric. -/
theorem cleanSeries_sorted_coerced_scenario_witness :
    (⟨Cell.num 2021, Cell.num 2.3, Cell.str "Historical"⟩ : Row).year.isNum = true ∧
    (⟨Cell.num 2021, Cell.num 2.3, Cell.str "Historical"⟩ : Row).value.isNum = true :=
  (cleanSeries_sorted_coerced_scenario.1 scenarioInput).2
    ⟨Cell.num 2021, Cell.num 2.3, Cell.str "Historical"⟩ (by decide)

/-- C4: the scorecard is the fixed four-entry literal table sorted
descending by the Overall score, ties broken by stable original order:
Healthcare & Life Sciences first, then Aerospace & Défense (both 8.5),
then Agri-Food Tech (7.8), then Luxury & High-End Tourism (7.5). -/
theorem scorecard_sorted_desc_stable :
    List.Sorted overallDesc scorecard ∧
    scorecard =
      [⟨"Healthcare & Life Sciences (Health 2030)", 9, 9, 7, 8.5⟩,
       ⟨"Aerospace & Défense", 8, 8, 9, 8.5⟩,
       ⟨"Agri-Food Tech", 8, 8, 7, 7.8⟩,
       ⟨"Luxury & High-End Tourism", 6, 7, 9, 7.5⟩] :=
  ⟨List.sorted_insertionSort overallDesc scorecardRows, by decide⟩

/-- C2: loading a filename not present in the base directory yields the
missing-file error, which halts the render pass and reports the attempted
path, the base directory and its (non-empty) file listing; loading a
present filename returns the parsed table. The listing is non-empty
because the base directory is the directory of the running script, so it
contains the script itself. -/
theorem load_csv_missing_file_spec (fs : FileSystem) (filename : String)
    (happ : "app.py" ∈ fs.names) :
    (filename ∉ fs.names →
      load_csv fs filename =
        .missingFileError (joinPath fs.baseDir filename) fs.baseDir fs.names ∧
      fs.names ≠ []) ∧
    (filename ∈ fs.names → load_csv fs filename = .ok (fs.content filename)) := by
  constructor
  · intro hnot
    refine ⟨?_, List.ne_nil_of_mem happ⟩
    simp [load_csv, hnot]
  · intro hmem
    simp [load_csv, hmem]

/-- Witness for C2 at a concrete directory and a missing filename. -/
theorem load_csv_missing_file_spec_witness :
    load_csv exampleDir "france_missing.csv" =
      .missingFileError (joinPath exampleDir.baseDir "france_missing.csv")
        exampleDir.baseDir exampleDir.names ∧
    exampleDir.names ≠ [] :=
  (load_csv_missing_file_spec exampleDir "france_missing.csv" (by decide)).1
    (by decide)

/-- C3: partitioning a cleaned series into historical and forecast is
case- and surrounding-whitespace-insensitive, and a Type value matching
neither keeps its row in the cleaned series but lands in neither
partition; in particular the raw Type value " Forecast " classifies as
forecast. -/
theorem type_partition_insensitive :
    (∀ (t : Table) (r : Row), t.hasType = true → r ∈ t.rows →
      keepRow (coerceRow true r) = true →
      ((coerceRow true r ∈ fcstOf (cleanSeries t) ↔
          pyLower (pyStrip (astypeStr r.type)) = "forecast") ∧
       (coerceRow true r ∈ histOf (cleanSeries t) ↔
          pyLower (pyStrip (astypeStr r.type)) = "historical") ∧
       (pyLower (pyStrip (astypeStr r.type)) ≠ "historical" →
        pyLower (pyStrip (astypeStr r.type)) ≠ "forecast" →
          coerceRow true r ∈ (cleanSeries t).rows ∧
          coerceRow true r ∉ histOf (cleanSeries t) ∧
          coerceRow true r ∉ fcstOf (cleanSeries t)))) ∧
    fcstOf (cleanSeries mixedCaseInput) =
      [⟨Cell.num 2021, Cell.num 2.3, Cell.str "Forecast"⟩] ∧
    histOf (cleanSeries mixedCaseInput) = [] := by
  refine ⟨?_, by decide, by decide⟩
  intro t r ht hr hkeep
  have hmem : coerceRow true r ∈ (cleanSeries t).rows := by
    apply mem_clean_rows.mpr
    unfold kept
    rw [ht]
    exact List.mem_filter.mpr ⟨List.mem_map_of_mem _ hr, hkeep⟩
  have hfcstEq : fcstOf (cleanSeries t) =
      (cleanSeries t).rows.filter (rowIsType "forecast") := by
    simp [fcstOf, clean_hasType, ht]
  have hhistEq : histOf (cleanSeries t) =
      (cleanSeries t).rows.filter (rowIsType "historical") := by
    simp [histOf, clean_hasType, ht]
  have hbeqF : rowIsType "forecast" (coerceRow true r) =
      (pyLower (pyStrip (astypeStr r.type)) == "forecast") := rfl
  have hbeqH : rowIsType "historical" (coerceRow true r) =
      (pyLower (pyStrip (astypeStr r.type)) == "historical") := rfl
  refine ⟨?_, ?_, ?_⟩
  · rw [hfcstEq, List.mem_filter, hbeqF]
    simp [hmem]
  · rw [hhistEq, List.mem_filter, hbeqH]
    simp [hmem]
  · intro h1 h2
    refine ⟨hmem, ?_, ?_⟩
    · rw [hhistEq]
      intro hin
      have h3 := (List.mem_filter.mp hin).2
      rw [hbeqH] at h3
      exact h1 (by simpa using h3)
    · rw [hfcstEq]
      intro hin
      have h3 := (List.mem_filter.mp hin).2
      rw [hbeqF] at h3
      exact h2 (by simpa using h3)

/-- Witness for C3: the mixed-case, whitespace-padded row " Forecast "
lands in the forecast partition. -/
theorem type_partition_insensitive_witness :
    coerceRow true (⟨Cell.num 2021, Cell.str "2.3", Cell.str " Forecast "⟩ : Row) ∈
      fcstOf (cleanSeries mixedCaseInput) :=
  ((type_partition_insensitive.1 mixedCaseInput
      ⟨Cell.num 2021, Cell.str "2.3", Cell.str " Forecast "⟩
      rfl (by decide) (by decide)).1).mpr (by decide)

/-- C6: a series that cleans to the empty sequence still yields a chart:
no historical line, no forecast line, no connector, but the band and the
center reference line are present. -/
theorem plot_empty_series_chart (t : Table) (ti y : String) (c w : ℚ)
    (h : (cleanSeries t).rows = []) :
    plot_hist_forecast_band t ti y c w =
      { bandLower := c - w / 2, bandUpper := c + w / 2, refLine := c,
        histLine := none, fcstLine := none, connector := none,
        xticks := [], title := ti, yLabel := y } := by
  have hh : histOf (cleanSeries t) = [] := by
    simp [histOf, h]
  have hf : fcstOf (cleanSeries t) = [] := by
    simp [fcstOf, h]
  simp [plot_hist_forecast_band, hh, hf, h]

/-- Witness for C6 at a concrete table whose single row fails value
coercion. -/
theorem plot_empty_series_chart_witness :
    plot_hist_forecast_band badValueInput "T" "%" 2 2 =
      { bandLower := 2 - 2 / 2, bandUpper := 2 + 2 / 2, refLine := 2,
        histLine := none, fcstLine := none, connector := none,
        xticks := [], title := "T", yLabel := "%" } :=
  plot_empty_series_chart badValueInput "T" "%" 2 2 (by decide)

/-- C8: the band drawn by the chart builder has bounds exactly
center − width/2 and center + width/2, and lower ≤ upper whenever the
width is non-negative. -/
theorem band_bounds_exact (t : Table) (ti y : String) (c w : ℚ) (h : 0 ≤ w) :
    (plot_hist_forecast_band t ti y c w).bandLower = c - w / 2 ∧
    (plot_hist_forecast_band t ti y c w).bandUpper = c + w / 2 ∧
    (plot_hist_forecast_band t ti y c w).bandLower ≤
      (plot_hist_forecast_band t ti y c w).bandUpper := by
  refine ⟨rfl, rfl, ?_⟩
  show c - w / 2 ≤ c + w / 2
  linarith

/-- Witness for C8 at concrete band parameters. -/
theorem band_bounds_exact_witness :
    (plot_hist_forecast_band scenarioInput "T" "%" 2 2).bandLower ≤
      (plot_hist_forecast_band scenarioInput "T" "%" 2 2).bandUpper :=
  (band_bounds_exact scenarioInput "T" "%" 2 2 (by norm_num)).2.2

/-- C9: the chart has a connector exactly when both partitions are
non-empty, and then it is the single segment from the last historical
point to the first forecast point. -/
theorem connector_last_hist_first_fcst (t : Table) (ti y : String) (c w : ℚ) :
    ((plot_hist_forecast_band t ti y c w).connector = none ↔
      histOf (cleanSeries t) = [] ∨ fcstOf (cleanSeries t) = []) ∧
    (∀ a b : ℚ × ℚ,
      ((histOf (cleanSeries t)).map pointOf).getLast? = some a →
      ((fcstOf (cleanSeries t)).map pointOf).head? = some b →
      (plot_hist_forecast_band t ti y c w).connector = some (a, b)) := by
  have hconn : (plot_hist_forecast_band t ti y c w).connector =
      (if (fcstOf (cleanSeries t)).isEmpty then none
       else
         match ((histOf (cleanSeries t)).map pointOf).getLast?,
               ((fcstOf (cleanSeries t)).map pointOf).head? with
         | some a, some b => some (a, b)
         | _, _ => none) := rfl
  cases hfe : (fcstOf (cleanSeries t)).isEmpty with
  | true =>
    have hfnil : fcstOf (cleanSeries t) = [] := List.isEmpty_iff.mp hfe
    constructor
    · rw [hconn, hfe]
      simp [hfnil]
    · intro a b hga hhb
      rw [hfnil] at hhb
      simp at hhb
  | false =>
    have hfne : fcstOf (cleanSeries t) ≠ [] := by
      intro hnil
      rw [hnil] at hfe
      simp at hfe
    obtain ⟨b0, hb0⟩ :
        ∃ b0, ((fcstOf (cleanSeries t)).map pointOf).head? = some b0 := by
      cases hm : ((fcstOf (cleanSeries t)).map pointOf).head? with
      | none =>
        exfalso
        rw [List.head?_eq_none_iff, List.map_eq_nil_iff] at hm
        exact hfne hm
      | some b0 => exact ⟨b0, rfl⟩
    cases hgl : ((histOf (cleanSeries t)).map pointOf).getLast? with
    | none =>
      have hhnil : histOf (cleanSeries t) = [] := by
        rw [List.getLast?_eq_none_iff, List.map_eq_nil_iff] at hgl
        exact hgl
      constructor
      · rw [hconn, hfe]
        simp [hgl, hb0, hhnil]
      · intro a b hga hhb
        simp at hga
    | some a0 =>
      have hhne : histOf (cleanSeries t) ≠ [] := by
        intro hnil
        rw [hnil] at hgl
        simp at hgl
      constructor
      · rw [hconn, hfe]
        simp [hgl, hb0, hhne, hfne]
      · intro a b hga hhb
        injection hga with hab
        subst hab
        rw [hconn, hfe, hgl, hhb]
        simp

/-- Witness for C9: the scenario series gets the connector from
(2021, 2.3) to (2023, 1.1). -/
theorem connector_last_hist_first_fcst_witness :
    (plot_hist_forecast_band scenarioInput "T" "%" 2 2).connector =
      some ((2021, 2.3), (2023, 1.1)) :=
  (connector_last_hist_first_fcst scenarioInput "T" "%" 2 2).2
    (2021, 2.3) (2023, 1.1) (by decide) (by decide)

/-- C10: a row whose Type cell is missing gets the literal string "nan"
after cleaning; it stays in the cleaned series when its year and value
coerce, but belongs to neither the historical nor the forecast
partition. -/
theorem type_nan_classified_neither (t : Table) (r : Row)
    (ht : t.hasType = true) (hr : r ∈ t.rows) (hna : r.type = .na)
    (hy : (toNumericCell r.year).isNum = true)
    (hv : (toNumericCell r.value).isNum = true) :
    (coerceRow true r).type = .str "nan" ∧
    coerceRow true r ∈ (cleanSeries t).rows ∧
    coerceRow true r ∉ histOf (cleanSeries t) ∧
    coerceRow true r ∉ fcstOf (cleanSeries t) := by
  have hkeep : keepRow (coerceRow true r) = true := by
    simp [keepRow, coerceRow, hy, hv]
  have htype : (coerceRow true r).type = .str "nan" := by
    simp [coerceRow, cleanTypeCell, hna, astypeStr]
    decide
  have hmem : coerceRow true r ∈ (cleanSeries t).rows := by
    apply mem_clean_rows.mpr
    unfold kept
    rw [ht]
    exact List.mem_filter.mpr ⟨List.mem_map_of_mem _ hr, hkeep⟩
  refine ⟨htype, hmem, ?_, ?_⟩
  · intro hin
    rw [histOf, clean_hasType, ht] at hin
    simp only [if_true] at hin
    have h2 := (List.mem_filter.mp hin).2
    unfold rowIsType at h2
    rw [htype] at h2
    exact absurd h2 (by decide)
  · intro hin
    rw [fcstOf, clean_hasType, ht] at hin
    simp only [if_true] at hin
    have h2 := (List.mem_filter.mp hin).2
    unfold rowIsType at h2
    rw [htype] at h2
    exact absurd h2 (by decide)

/-- Witness for C10 at a concrete one-row table with a null Type cell. -/
theorem type_nan_classified_neither_witness :
    (coerceRow true (⟨Cell.num 2021, Cell.str "2.3", Cell.na⟩ : Row)).type =
      Cell.str "nan" ∧
    coerceRow true (⟨Cell.num 2021, Cell.str "2.3", Cell.na⟩ : Row) ∈
      (cleanSeries nanTypeInput).rows ∧
    coerceRow true (⟨Cell.num 2021, Cell.str "2.3", Cell.na⟩ : Row) ∉
      histOf (cleanSeries nanTypeInput) ∧
    coerceRow true (⟨Cell.num 2021, Cell.str "2.3", Cell.na⟩ : Row) ∉
      fcstOf (cleanSeries nanTypeInput) :=
  type_nan_classified_neither nanTypeInput
    ⟨Cell.num 2021, Cell.str "2.3", Cell.na⟩
    rfl (by decide) rfl (by decide) (by decide)

end FranceDash
